import Mathlib

/-!
Verification of the Sarver backend (Express + MySQL chat server) against its
specification.  The repository contains several near-duplicate server variants:

* `src/server.js` (first document, "Mangrat backend"): plaintext passwords,
  `dropOldTables()` executed at startup, debug `GET /api/memories` endpoint.
* `src/unnamed/part_001` ("Mangrat v4omini"): the full variant with sessions
  (`authMiddleware`, `/api/login`, `/api/logout`), the per-user memory window
  (`pushMemory`, `getMemory`), plan upgrade and the tiered `/api/chat` route.
* `src/unnamed/part_002`: bcrypt-hashed passwords, chat behind a mandatory
  `authMiddleware` (401 without a valid session), no memory usage.

The embedding below models the MySQL tables as Lean lists, `NOW()` as a `Nat`
parameter, and the outcome of the external Hugging Face call as an explicit
parameter (the code only observes whether `axios.post` threw and what shape
`resp.data` had).  Functions named `...V0` come from `src/server.js`,
`...V1` from `src/unnamed/part_001`, `...V2` from `src/unnamed/part_002`.
-/

namespace Sarver

/-- The `users.plan` column: `ENUM('basic','premium') DEFAULT 'basic'`. -/
inductive Plan where
  | basic
  | premium
deriving DecidableEq, Repr

/-- A row of the `users` table (columns used by the routes). -/
structure User where
  id : Nat
  name : String
  email : String
  password : String
  plan : Plan
deriving DecidableEq, Repr

/-- A row of the `sessions` table of part_001: `token` is the primary key,
`expires_at DATETIME` is nullable in that schema, hence `Option Nat`. -/
structure Session where
  token : String
  userId : Nat
  expiresAt : Option Nat
deriving DecidableEq, Repr

/-- A row of the `memories` table: `id` is `AUTO_INCREMENT`, `role` is
`ENUM('user','ai')`, modelled as the string the code inserts. -/
structure MemoryEntry where
  id : Nat
  userId : Nat
  role : String
  content : String
deriving DecidableEq, Repr

/-- A row of the `chat_stats` table of `src/server.js`.  The schema creates it
but no route ever inserts or updates a row; it is carried in the state so that
"no usage counter is incremented" is an explicit part of state equality. -/
structure ChatStat where
  userId : Nat
  tokensUsed : Nat
  messagesSent : Nat
deriving DecidableEq, Repr

/-- The database state the claims are about.  `userSettings` holds the
`user_id` keys inserted by `src/server.js`'s register route.  `nextUserId` and
`nextMemId` model the `AUTO_INCREMENT` counters. -/
structure DB where
  users : List User
  sessions : List Session
  memories : List MemoryEntry
  chatStats : List ChatStat
  userSettings : List Nat
  nextUserId : Nat
  nextMemId : Nat
deriving DecidableEq, Repr

/-- A freshly created database (tables exist, all empty, counters at 1). -/
def DB.empty : DB :=
  { users := [], sessions := [], memories := [], chatStats := [],
    userSettings := [], nextUserId := 1, nextMemId := 1 }

/-! ## Session validation (part_001 `authMiddleware`) -/

/-- The `WHERE` expiry condition of part_001's `authMiddleware`:
`(s.expires_at IS NULL OR s.expires_at > NOW())`. -/
def sessionLive (now : Nat) (s : Session) : Bool :=
  match s.expiresAt with
  | none => true
  | some e => decide (now < e)

/-- part_001 `authMiddleware` query:
`SELECT ... FROM sessions s JOIN users u ON s.user_id = u.id WHERE s.token = ?
AND (s.expires_at IS NULL OR s.expires_at > NOW()) LIMIT 1`.
Returns the joined user of the first session row matching token and expiry
whose `user_id` joins to an existing user; `none` means the middleware leaves
`req.user = null`. -/
def validate (db : DB) (now : Nat) (token : String) : Option User :=
  db.sessions.findSome? fun s =>
    if s.token = token ∧ sessionLive now s then
      db.users.find? fun u => u.id == s.userId
    else none

/-- part_002 / part_000 `authMiddleware` expiry condition:
`s.expires_at > NOW()` with no `IS NULL` escape (SQL `NULL > NOW()` is not
true, so a null expiry never validates there). -/
def sessionLiveV2 (now : Nat) (s : Session) : Bool :=
  match s.expiresAt with
  | none => false
  | some e => decide (now < e)

/-- part_002 `authMiddleware` join query (same shape as part_001 but with the
strict expiry condition). -/
def validateV2 (db : DB) (now : Nat) (token : String) : Option User :=
  db.sessions.findSome? fun s =>
    if s.token = token ∧ sessionLiveV2 now s then
      db.users.find? fun u => u.id == s.userId
    else none

/-! ## Login and logout (part_001) -/

/-- Response of part_001 `POST /api/login`. -/
inductive LoginResponse where
  | missingFields
  | badCredentials
  | okUser (id : Nat) (name : String) (plan : Plan)
deriving DecidableEq, Repr

/-- part_001 `POST /api/login`: `SELECT ... WHERE email = ? AND password = ?
LIMIT 1`; on a match inserts a session with `expires_at = now + 7 days` (in
milliseconds: `1000*60*60*24*7`).  The generated `uuidv4()` token is passed in
as a parameter. -/
def loginV1 (db : DB) (now : Nat) (email password token : String) :
    LoginResponse × DB :=
  if email = "" ∨ password = "" then (.missingFields, db)
  else
    match db.users.find? (fun u => u.email == email && u.password == password) with
    | none => (.badCredentials, db)
    | some u =>
      (.okUser u.id u.name u.plan,
        { db with sessions := db.sessions ++
            [{ token := token, userId := u.id,
               expiresAt := some (now + 1000 * 60 * 60 * 24 * 7) }] })

/-- part_001 `POST /api/logout`: when a token is presented,
`DELETE FROM sessions WHERE token = ?` (deletes every row with that token);
without a token the state is untouched. -/
def logoutV1 (db : DB) (token : Option String) : DB :=
  match token with
  | none => db
  | some t => { db with sessions := db.sessions.filter fun s => !(s.token == t) }

/-! ## Memory window (part_001 `pushMemory` / `getMemory`) -/

/-- part_001 `pushMemory`: `INSERT INTO memories (user_id, role, content)
VALUES (?, ?, ?)`; the `AUTO_INCREMENT` id is the next counter value. -/
def pushMemory (db : DB) (userId : Nat) (role content : String) : DB :=
  { db with
    memories := db.memories ++
      [{ id := db.nextMemId, userId := userId, role := role, content := content }],
    nextMemId := db.nextMemId + 1 }

/-- Insert one entry into a list kept in descending `id` order (auxiliary for
the `ORDER BY id DESC` of `getMemory`). -/
def insertDescById (m : MemoryEntry) : List MemoryEntry → List MemoryEntry
  | [] => [m]
  | x :: xs => if x.id ≤ m.id then m :: x :: xs else x :: insertDescById m xs

/-- `ORDER BY id DESC` as an insertion sort. -/
def orderByIdDesc : List MemoryEntry → List MemoryEntry
  | [] => []
  | x :: xs => insertDescById x (orderByIdDesc xs)

/-- part_001 `getMemory(userId, limit)`:
`SELECT role, content, created_at FROM memories WHERE user_id = ?
ORDER BY id DESC LIMIT ?` followed by `rows.reverse()` in JS. -/
def getMemory (db : DB) (userId limit : Nat) : List MemoryEntry :=
  ((orderByIdDesc (db.memories.filter fun m => m.userId == userId)).take limit).reverse

/-- part_001 `POST /api/clear-memory` body (after the auth guard):
`DELETE FROM memories WHERE user_id = ?`. -/
def clearMemoryV1 (db : DB) (userId : Nat) : DB :=
  { db with memories := db.memories.filter fun m => !(m.userId == userId) }

/-! ## Chat (part_001 `POST /api/chat`) -/

/-- JavaScript `a || b` on an optional string: an absent field or an empty
string falls through to the right operand. -/
def jsOrElse (a : Option String) (b : String) : String :=
  match a with
  | some s => if s = "" then b else s
  | none => b

/-- Outcome of the `axios.post` call to the Hugging Face inference API: either
the promise rejected (timeout, network or HTTP error carrying a message), or it
resolved and the code reads `resp.data?.[0]?.generated_text` and
`resp.data?.generated_text`. -/
inductive HFOutcome where
  | threw (message : String)
  | ok (arrayFirstText : Option String) (objectText : Option String)
deriving DecidableEq, Repr

/-- The JSON body part_001 sends upstream:
`{ inputs: prompt, parameters: { max_new_tokens: isPremium ? 512 : 200 } }`. -/
structure HFRequest where
  inputs : String
  maxNewTokens : Nat
deriving DecidableEq, Repr

/-- part_001's fixed system preamble string. -/
def systemMessageV1 : String :=
  "Tu es Mangrat v4omini, assistant utile. Réponds en français."

/-- part_001's rendering of the fetched window:
`mem.map(m => role + ": " + content).join("\n")`. -/
def renderMemory (mem : List MemoryEntry) : String :=
  String.intercalate "\n" (mem.map fun m => m.role ++ ": " ++ m.content)

/-- part_001's prompt template. -/
def mkPromptV1 (memoryText message : String) : String :=
  systemMessageV1 ++ "\n\nMémoire:\n" ++ memoryText ++ "\n\nUtilisateur: " ++
    message ++ "\n\nRéponse:"

/-- part_001's generation budget: `max_new_tokens: isPremium ? 512 : 200`. -/
def maxNewTokensV1 (isPremium : Bool) : Nat :=
  if isPremium then 512 else 200

/-- HTTP response of part_001 `POST /api/chat`. -/
inductive ChatResponse where
  | badRequest (error : String)
  | okText (response : String)
  | modelError (error : String)
deriving DecidableEq, Repr

/-- Result of one part_001 chat request: the HTTP response, the request body
sent to the Hugging Face API (`none` when the 400 guard fired before the
call), and the database state afterwards. -/
structure ChatResult where
  response : ChatResponse
  request : Option HFRequest
  db : DB
deriving DecidableEq, Repr

/-- part_001 `POST /api/chat` behind `authMiddleware` (which never rejects; it
only sets `req.user`).  Flow: 400 if `message` is falsy; `userId` and
`isPremium` from `req.user`; memory fetched with `getMemory(userId, 10)` only
when authenticated; prompt assembled; upstream call; `aiText` extracted with
the `||` fallbacks; on success and when authenticated, the user turn and the
ai turn are pushed; any thrown error answers 500
`"Erreur modèle: " + err.message`. -/
def chatV1 (db : DB) (now : Nat) (token : Option String) (message : String)
    (hf : HFOutcome) : ChatResult :=
  if message = "" then
    { response := .badRequest "Message manquant", request := none, db := db }
  else
    let user := token.bind (validate db now)
    let isPremium : Bool := match user with
      | some u => u.plan == Plan.premium
      | none => false
    let memoryText := match user with
      | some u => renderMemory (getMemory db u.id 10)
      | none => ""
    let prompt := mkPromptV1 memoryText message
    let req : HFRequest := { inputs := prompt, maxNewTokens := maxNewTokensV1 isPremium }
    match hf with
    | .threw msg =>
      { response := .modelError ("Erreur modèle: " ++ msg), request := some req, db := db }
    | .ok a b =>
      let aiText := jsOrElse a (jsOrElse b "Erreur génération")
      match user with
      | some u =>
        { response := .okText aiText, request := some req,
          db := pushMemory (pushMemory db u.id "user" message) u.id "ai" aiText }
      | none =>
        { response := .okText aiText, request := some req, db := db }

/-! ## Chat (part_002 `POST /api/chat`, behind a mandatory auth guard) -/

/-- HTTP response of part_002 `POST /api/chat`. -/
inductive ChatV2Response where
  | unauthorized (error : String)
  | badRequest (error : String)
  | okText (response : String)
  | upstreamError (error : String)
deriving DecidableEq, Repr

/-- part_002 `POST /api/chat`: the `authMiddleware` answers 401
(`"Non autorisé: token manquant"` / `"Non autorisé: token invalide ou expiré"`)
before the handler runs; the handler itself sends the bare `message` upstream
(no memory, no prompt assembly, the two `INSERT INTO memories` lines are
commented out), and extracts `response.data[0].generated_text` when present. -/
def chatV2 (db : DB) (now : Nat) (cookieToken : Option String) (message : String)
    (hf : HFOutcome) : ChatV2Response × DB :=
  match cookieToken with
  | none => (.unauthorized "Non autorisé: token manquant", db)
  | some t =>
    match validateV2 db now t with
    | none => (.unauthorized "Non autorisé: token invalide ou expiré", db)
    | some _ =>
      if message = "" then (.badRequest "Le message ne peut pas être vide.", db)
      else
        match hf with
        | .threw _ =>
          (.upstreamError "Le modèle d'IA n'a pas pu répondre. Veuillez réessayer.", db)
        | .ok a _ =>
          let aiText := match a with
            | some s => s
            | none => "Désolé, je n'ai pas pu générer de réponse."
          (.okText aiText, db)

/-! ## Upgrade (part_001 `POST /api/upgrade`) -/

/-- HTTP response of part_001 `POST /api/upgrade`. -/
inductive UpgradeResponse where
  | unauthorized
  | okPremium
deriving DecidableEq, Repr

/-- The row updater of `UPDATE users SET plan = 'premium' WHERE id = ?`. -/
def setPremiumIf (targetId : Nat) (u : User) : User :=
  if u.id == targetId then { u with plan := Plan.premium } else u

/-- part_001 `POST /api/upgrade`: 401 when `authMiddleware` produced no user,
otherwise `UPDATE users SET plan = 'premium' WHERE id = req.user.id` and a 200
with `plan: "premium"`.  The update succeeds even when it matches no row. -/
def upgradeV1 (db : DB) (now : Nat) (token : Option String) :
    UpgradeResponse × DB :=
  match token.bind (validate db now) with
  | none => (.unauthorized, db)
  | some u =>
    (.okPremium, { db with users := db.users.map (setPremiumIf u.id) })

/-! ## Register (src/server.js `POST /api/register`) -/

/-- Infrastructure outcome of the `INSERT` statements in the register route:
either the pool works, or it throws an arbitrary error whose `message` the
route copies into the 500 response body. -/
inductive StorageOutcome where
  | works
  | failed (message : String)
deriving DecidableEq, Repr

/-- HTTP response of `src/server.js` `POST /api/register`. -/
inductive RegResponse where
  | missingFields
  | created (userId : Nat)
  | emailTaken
  | serverError (error : String)
deriving DecidableEq, Repr

/-- `src/server.js` `POST /api/register`: 400 when a field is falsy, then
`INSERT INTO users (name, email, password) VALUES (?, ?, ?)` with the request's
plaintext password, plus `INSERT INTO user_settings (user_id)`.  A duplicate
email raises `ER_DUP_ENTRY` (modelled from the `UNIQUE` constraint on
`users.email`) answered with 409; any other storage error is answered with 500
and `error: err.message`. -/
def registerV0 (db : DB) (name email password : String) (st : StorageOutcome) :
    RegResponse × DB :=
  if name = "" ∨ email = "" ∨ password = "" then (.missingFields, db)
  else
    match st with
    | .failed msg => (.serverError msg, db)
    | .works =>
      if db.users.any (fun u => u.email == email) then (.emailTaken, db)
      else
        (.created db.nextUserId,
          { db with
            users := db.users ++
              [{ id := db.nextUserId, name := name, email := email,
                 password := password, plan := Plan.basic }],
            userSettings := db.userSettings ++ [db.nextUserId],
            nextUserId := db.nextUserId + 1 })

/-! ## Startup (src/server.js initialisation) -/

/-- `src/server.js` initialisation: `await dropOldTables()` drops
`user_settings, sessions, memories, chat_stats, subscriptions, logs, friends,
users`, then `await ensureTables()` recreates them empty; every record stored
before the restart is gone and the `AUTO_INCREMENT` counters restart at 1. -/
def startupV0 (_db : DB) : DB := DB.empty

/-! ## Invariants of the reachable database states -/

/-- The `memories` table as the embedded routes maintain it: rows in creation
order with strictly increasing `AUTO_INCREMENT` ids, all below the counter. -/
def MemOrdered (db : DB) : Prop :=
  db.memories.Pairwise (fun a b => a.id < b.id) ∧
    ∀ m ∈ db.memories, m.id < db.nextMemId

/-- The `sessions` table as the embedded routes maintain it: `expires_at` is
set on every row (login always provides one) and `user_id` joins to an
existing user. -/
def SessionsWF (db : DB) : Prop :=
  ∀ s ∈ db.sessions, s.expiresAt.isSome = true ∧ ∃ u ∈ db.users, u.id = s.userId

theorem MemOrdered.push {db : DB} (h : MemOrdered db) (userId : Nat)
    (role content : String) : MemOrdered (pushMemory db userId role content) := by
  obtain ⟨hp, hb⟩ := h
  constructor
  · simp only [pushMemory, List.pairwise_append]
    exact ⟨hp, List.pairwise_singleton _ _, fun a ha b hb' => by
      simp only [List.mem_singleton] at hb'
      subst hb'
      exact hb a ha⟩
  · intro m hm
    simp only [pushMemory, List.mem_append, List.mem_singleton] at hm
    rcases hm with hm | hm
    · exact Nat.lt_succ_of_lt (hb m hm)
    · subst hm
      exact Nat.lt_succ_self _

theorem SessionsWF.login {db : DB} (h : SessionsWF db) {now : Nat}
    {email password token : String} :
    SessionsWF (loginV1 db now email password token).2 := by
  unfold loginV1
  split
  · exact h
  · split
    · exact h
    · next u hu =>
      intro s hs
      simp only [List.mem_append, List.mem_singleton] at hs
      rcases hs with hs | hs
      · exact h s hs
      · subst hs
        exact ⟨rfl, u, List.mem_of_find?_eq_some hu, rfl⟩

theorem SessionsWF.logout {db : DB} (h : SessionsWF db) {token : Option String} :
    SessionsWF (logoutV1 db token) := by
  unfold logoutV1
  cases token with
  | none => exact h
  | some t =>
    intro s hs
    exact h s (List.mem_of_mem_filter hs)

/-! ## The memory window returns the most recent suffix -/

theorem insertDescById_of_lt {m : MemoryEntry} :
    ∀ {l : List MemoryEntry}, (∀ y ∈ l, m.id < y.id) →
      insertDescById m l = l ++ [m]
  | [], _ => rfl
  | x :: xs, h => by
    have hx : m.id < x.id := h x (List.mem_cons_self x xs)
    simp only [insertDescById, if_neg (Nat.not_le_of_lt hx), List.cons_append]
    exact congrArg (x :: ·) (insertDescById_of_lt fun y hy => h y (List.mem_cons_of_mem x hy))

/-- Sorting an ascending list in descending order reverses it. -/
theorem orderByIdDesc_of_ascending :
    ∀ {l : List MemoryEntry}, l.Pairwise (fun a b => a.id < b.id) →
      orderByIdDesc l = l.reverse
  | [], _ => rfl
  | x :: xs, h => by
    rcases List.pairwise_cons.mp h with ⟨hx, hxs⟩
    simp only [orderByIdDesc, orderByIdDesc_of_ascending hxs, List.reverse_cons]
    exact insertDescById_of_lt fun y hy => hx y (List.mem_reverse.mp hy)

/-- Under the ascending-id invariant, `getMemory` is exactly the last `limit`
elements (in order) of the identity's creation-ordered entry list. -/
theorem getMemory_eq_drop {db : DB} (userId limit : Nat)
    (h : db.memories.Pairwise fun a b => a.id < b.id) :
    getMemory db userId limit =
      (db.memories.filter fun m => m.userId == userId).drop
        ((db.memories.filter fun m => m.userId == userId).length - limit) := by
  have hf : (db.memories.filter fun m => m.userId == userId).Pairwise
      fun a b => a.id < b.id := List.Pairwise.filter _ h
  unfold getMemory
  rw [orderByIdDesc_of_ascending hf, ← List.rtake_eq_reverse_take_reverse, List.rtake]

/-! ## Concrete states used by the witnesses -/

/-- A small concrete database: two users, one live session for user 1, three
memory entries in creation order. -/
def dbW : DB :=
  { users :=
      [{ id := 1, name := "Ana", email := "ana@x.com", password := "secret",
         plan := Plan.basic },
       { id := 2, name := "Bob", email := "bob@x.com", password := "pw2",
         plan := Plan.premium }],
    sessions :=
      [{ token := "tok1", userId := 1, expiresAt := some 1000 },
       { token := "tok2", userId := 2, expiresAt := some 1000 }],
    memories :=
      [{ id := 1, userId := 1, role := "user", content := "salut" },
       { id := 2, userId := 1, role := "ai", content := "bonjour" },
       { id := 3, userId := 2, role := "user", content := "hello" }],
    chatStats := [], userSettings := [], nextUserId := 3, nextMemId := 4 }

/-! ## Claim C4 — the memory window -/

/-- C4: for every identity and every positive limit `N`, part_001's
`getMemory` (the spec's `fetch(identity, N)`) returns at most `N` entries;
under the ascending-id invariant the result is exactly the trailing `N`
entries of the identity's creation-ordered entry list — the `N` most recent,
in chronological oldest-first order (strictly increasing ids), never reverse —
and a caller asking for more entries than exist receives all of them. -/
theorem getMemory_window_spec (db : DB) (userId limit : Nat)
    (hpos : 0 < limit)
    (h : db.memories.Pairwise fun a b => a.id < b.id) :
    (getMemory db userId limit).length ≤ limit ∧
    (getMemory db userId limit).Pairwise (fun a b => a.id < b.id) ∧
    getMemory db userId limit =
      (db.memories.filter fun m => m.userId == userId).drop
        ((db.memories.filter fun m => m.userId == userId).length - limit) ∧
    ((db.memories.filter fun m => m.userId == userId).length ≤ limit →
      getMemory db userId limit = db.memories.filter fun m => m.userId == userId) := by
  have hd : getMemory db userId limit =
      (db.memories.filter fun m => m.userId == userId).drop
        ((db.memories.filter fun m => m.userId == userId).length - limit) :=
    getMemory_eq_drop userId limit h
  refine ⟨?_, ?_, hd, ?_⟩
  · rw [hd, List.length_drop]
    omega
  · rw [hd]
    exact List.Pairwise.sublist
      ((List.drop_sublist _ _).trans (List.filter_sublist _)) h
  · intro hle
    rw [hd, Nat.sub_eq_zero_of_le hle, List.drop_zero]

/-- Witness for C4 at `dbW`, identity 1, window size 1: the hypotheses hold
there and the window is user 1's single most recent entry. -/
theorem getMemory_window_spec_witness :
    (0 < 1 ∧ (dbW.memories.Pairwise fun a b => a.id < b.id)) ∧
    ((getMemory dbW 1 1).length ≤ 1 ∧
      (getMemory dbW 1 1).Pairwise (fun a b => a.id < b.id) ∧
      getMemory dbW 1 1 =
        (dbW.memories.filter fun m => m.userId == 1).drop
          ((dbW.memories.filter fun m => m.userId == 1).length - 1) ∧
      ((dbW.memories.filter fun m => m.userId == 1).length ≤ 1 →
        getMemory dbW 1 1 = dbW.memories.filter fun m => m.userId == 1)) :=
  ⟨⟨by decide, by decide⟩, getMemory_window_spec dbW 1 1 (by decide) (by decide)⟩

/-! ## Claim C1 — session validity and logout -/

/-- C1: with well-formed sessions (every row has an expiry and joins to an
existing user, as login maintains them), part_001's `authMiddleware` validates
a token iff a session row with that token exists whose `expires_at` is
strictly in the future; and once logout has deleted the token's session rows a
later validation of that token fails (yields no user, i.e. `AuthError` on the
guarded routes), at every later time and regardless of how many validations
happened before. -/
theorem validate_iff_live_and_logout (db : DB) (now : Nat) (token : String)
    (hwf : SessionsWF db) :
    ((validate db now token).isSome = true ↔
      ∃ s ∈ db.sessions, s.token = token ∧ ∃ e, s.expiresAt = some e ∧ now < e) ∧
    ∀ later : Nat, validate (logoutV1 db (some token)) later token = none := by
  constructor
  · rw [validate, List.findSome?_isSome_iff]
    constructor
    · rintro ⟨s, hs, hsome⟩
      by_cases hc : s.token = token ∧ sessionLive now s = true
      · obtain ⟨e, he⟩ := Option.isSome_iff_exists.mp (hwf s hs).1
        refine ⟨s, hs, hc.1, e, he, ?_⟩
        have hl := hc.2
        rw [sessionLive, he] at hl
        exact of_decide_eq_true hl
      · rw [if_neg hc] at hsome
        simp at hsome
    · rintro ⟨s, hs, htok, e, he, hlt⟩
      refine ⟨s, hs, ?_⟩
      have hlive : sessionLive now s = true := by
        rw [sessionLive, he]
        exact decide_eq_true hlt
      rw [if_pos ⟨htok, hlive⟩, List.find?_isSome]
      obtain ⟨-, u, hu, huid⟩ := hwf s hs
      exact ⟨u, hu, by simp [huid]⟩
  · intro later
    rw [validate, List.findSome?_eq_none_iff]
    intro s hs
    have hs' : s ∈ db.sessions.filter fun x => !(x.token == token) := by
      simpa [logoutV1] using hs
    rcases List.mem_filter.mp hs' with ⟨-, hne⟩
    rw [if_neg]
    rintro ⟨h1, -⟩
    rw [h1] at hne
    simp at hne

/-- Witness for C1 at `dbW` with token `"tok1"` at time 0: the well-formedness
hypothesis holds and the conclusion follows by applying the theorem. -/
theorem validate_iff_live_and_logout_witness :
    SessionsWF dbW ∧
    (((validate dbW 0 "tok1").isSome = true ↔
      ∃ s ∈ dbW.sessions, s.token = "tok1" ∧ ∃ e, s.expiresAt = some e ∧ 0 < e) ∧
    ∀ later : Nat, validate (logoutV1 dbW (some "tok1")) later "tok1" = none) :=
  ⟨by unfold SessionsWF; decide,
    validate_iff_live_and_logout dbW 0 "tok1" (by unfold SessionsWF; decide)⟩

/-! ## Unfolding lemmas for the part_001 chat route -/

theorem chatV1_db_threw (db : DB) (now : Nat) (tok : Option String)
    (message emsg : String) :
    (chatV1 db now tok message (.threw emsg)).db = db := by
  unfold chatV1
  split <;> rfl

theorem chatV1_response_threw (db : DB) (now : Nat) (tok : Option String)
    (message emsg : String) (hm : message ≠ "") :
    (chatV1 db now tok message (.threw emsg)).response =
      .modelError ("Erreur modèle: " ++ emsg) := by
  unfold chatV1
  rw [if_neg hm]

theorem chatV1_unauth_ok (db : DB) (now : Nat) (tok : Option String)
    (message : String) (a b : Option String)
    (hauth : tok.bind (validate db now) = none) (hm : message ≠ "") :
    chatV1 db now tok message (.ok a b) =
      { response := .okText (jsOrElse a (jsOrElse b "Erreur génération")),
        request := some { inputs := mkPromptV1 "" message,
                          maxNewTokens := maxNewTokensV1 false },
        db := db } := by
  unfold chatV1
  rw [if_neg hm]
  simp only [hauth]

theorem chatV1_auth_ok (db : DB) (now : Nat) (t message : String)
    (a b : Option String) (u : User)
    (hu : validate db now t = some u) (hm : message ≠ "") :
    chatV1 db now (some t) message (.ok a b) =
      { response := .okText (jsOrElse a (jsOrElse b "Erreur génération")),
        request := some
          { inputs := mkPromptV1 (renderMemory (getMemory db u.id 10)) message,
            maxNewTokens := maxNewTokensV1 (u.plan == Plan.premium) },
        db := pushMemory (pushMemory db u.id "user" message) u.id "ai"
                (jsOrElse a (jsOrElse b "Erreur génération")) } := by
  unfold chatV1
  rw [if_neg hm]
  simp only [Option.some_bind, hu]

theorem chatV1_request_auth (db : DB) (now : Nat) (t message : String)
    (hf : HFOutcome) (u : User)
    (hu : validate db now t = some u) (hm : message ≠ "") :
    (chatV1 db now (some t) message hf).request =
      some { inputs := mkPromptV1 (renderMemory (getMemory db u.id 10)) message,
             maxNewTokens := maxNewTokensV1 (u.plan == Plan.premium) } := by
  cases hf with
  | threw emsg =>
    unfold chatV1
    rw [if_neg hm]
    simp only [Option.some_bind, hu]
  | ok a b =>
    rw [chatV1_auth_ok db now t message a b u hu hm]

/-! ## Claim C3 — upstream failure leaves no trace -/

/-- C3: when the external text-generation call throws (timeout or upstream
failure), part_001's chat is all-or-nothing: the database is unchanged — no
memory entry for the user turn or the ai turn, no usage counter — and, when
the request had passed the input guard, the caller receives the failure as the
500 model-error response. -/
theorem chat_upstream_failure_atomic (db : DB) (now : Nat)
    (tok : Option String) (message emsg : String) :
    (chatV1 db now tok message (.threw emsg)).db = db ∧
    (message ≠ "" →
      (chatV1 db now tok message (.threw emsg)).response =
        .modelError ("Erreur modèle: " ++ emsg)) :=
  ⟨chatV1_db_threw db now tok message emsg,
   fun hm => chatV1_response_threw db now tok message emsg hm⟩

/-- Witness for C3: a concrete authenticated chat whose upstream call times
out leaves `dbW` unchanged and surfaces the failure. -/
theorem chat_upstream_failure_atomic_witness :
    (chatV1 dbW 0 (some "tok1") "Salut" (.threw "timeout exceeded")).db = dbW ∧
    (chatV1 dbW 0 (some "tok1") "Salut" (.threw "timeout exceeded")).response =
      .modelError ("Erreur modèle: " ++ "timeout exceeded") :=
  ⟨(chat_upstream_failure_atomic dbW 0 (some "tok1") "Salut" "timeout exceeded").1,
   (chat_upstream_failure_atomic dbW 0 (some "tok1") "Salut" "timeout exceeded").2
     (by decide)⟩

/-! ## Claim C5 — unauthenticated chat -/

/-- C5 (amended, part_001 side): in the part_001 variant a chat request with
no valid session is still served: the prompt is assembled with an empty
memory section and the basic-tier budget (`maxNewTokensV1 false = 200`), the
generated text is returned, and nothing is persisted for the caller. -/
theorem chat_unauthenticated_served (db : DB) (now : Nat) (tok : Option String)
    (message : String) (a b : Option String)
    (hauth : tok.bind (validate db now) = none) (hm : message ≠ "") :
    (chatV1 db now tok message (.ok a b)).db = db ∧
    (chatV1 db now tok message (.ok a b)).request =
      some { inputs := mkPromptV1 "" message,
             maxNewTokens := maxNewTokensV1 false } ∧
    (chatV1 db now tok message (.ok a b)).response =
      .okText (jsOrElse a (jsOrElse b "Erreur génération")) := by
  rw [chatV1_unauth_ok db now tok message a b hauth hm]
  exact ⟨rfl, rfl, rfl⟩

/-- Witness for C5: a concrete tokenless chat against `dbW` is served with
empty memory and 200-token budget, with no state change. -/
theorem chat_unauthenticated_served_witness :
    (chatV1 dbW 0 none "Bonjour" (.ok (some "Salut !") none)).db = dbW ∧
    (chatV1 dbW 0 none "Bonjour" (.ok (some "Salut !") none)).request =
      some { inputs := mkPromptV1 "" "Bonjour",
             maxNewTokens := maxNewTokensV1 false } ∧
    (chatV1 dbW 0 none "Bonjour" (.ok (some "Salut !") none)).response =
      .okText (jsOrElse (some "Salut !") (jsOrElse none "Erreur génération")) :=
  chat_unauthenticated_served dbW 0 none "Bonjour" (some "Salut !") none
    (by decide) (by decide)

/-- C5 counterexample: in the part_002 variant the same situation is not
served at all — chat without a session cookie is rejected with 401 before any
prompt is assembled, and an expired session is rejected likewise. -/
theorem chatV2_unauthenticated_rejected :
    chatV2 dbW 0 none "Bonjour" (.ok (some "Salut !") none) =
      (.unauthorized "Non autorisé: token manquant", dbW) ∧
    chatV2 dbW 2000 (some "tok1") "Bonjour" (.ok (some "Salut !") none) =
      (.unauthorized "Non autorisé: token invalide ou expiré", dbW) := by
  constructor <;> rfl

/-! ## Claim C6 — premium token budget strictly larger -/

/-- C6: for identical memory and message inputs, two authenticated chats that
differ only in the session user's plan produce upstream requests with
`maxTokens(basic) < maxTokens(premium)`: part_001 sends
`max_new_tokens: isPremium ? 512 : 200`, a total function of the two-valued
plan, and 200 < 512. -/
theorem chat_premium_budget_gt_basic (db1 db2 : DB) (now1 now2 : Nat)
    (t1 t2 message : String) (hf1 hf2 : HFOutcome) (u1 u2 : User)
    (h1 : validate db1 now1 t1 = some u1) (hp1 : u1.plan = Plan.basic)
    (h2 : validate db2 now2 t2 = some u2) (hp2 : u2.plan = Plan.premium)
    (hm : message ≠ "") :
    ∃ q1 q2 : HFRequest,
      (chatV1 db1 now1 (some t1) message hf1).request = some q1 ∧
      (chatV1 db2 now2 (some t2) message hf2).request = some q2 ∧
      q1.maxNewTokens = 200 ∧ q2.maxNewTokens = 512 ∧
      q1.maxNewTokens < q2.maxNewTokens := by
  refine ⟨_, _, chatV1_request_auth db1 now1 t1 message hf1 u1 h1 hm,
    chatV1_request_auth db2 now2 t2 message hf2 u2 h2 hm, ?_, ?_, ?_⟩
  · simp [maxNewTokensV1, hp1]
  · simp [maxNewTokensV1, hp2]
  · simp [maxNewTokensV1, hp1, hp2]

/-- Witness for C6: Ana (basic, session `tok1`) gets budget 200 and Bob
(premium, session `tok2`) gets budget 512 for the same message. -/
theorem chat_premium_budget_gt_basic_witness :
    (validate dbW 0 "tok1").isSome = true ∧
    (validate dbW 0 "tok2").isSome = true ∧
    ∃ q1 q2 : HFRequest,
      (chatV1 dbW 0 (some "tok1") "Salut" (.ok none none)).request = some q1 ∧
      (chatV1 dbW 0 (some "tok2") "Salut" (.ok none none)).request = some q2 ∧
      q1.maxNewTokens = 200 ∧ q2.maxNewTokens = 512 ∧
      q1.maxNewTokens < q2.maxNewTokens :=
  ⟨by decide, by decide,
    chat_premium_budget_gt_basic dbW dbW 0 0 "tok1" "tok2" "Salut"
      (.ok none none) (.ok none none)
      { id := 1, name := "Ana", email := "ana@x.com", password := "secret",
        plan := Plan.basic }
      { id := 2, name := "Bob", email := "bob@x.com", password := "pw2",
        plan := Plan.premium }
      (by decide) rfl (by decide) rfl (by decide)⟩

/-! ## Claim C2 — the stored credential -/

/-- C2 (code bug): `src/server.js`'s register route persists the plaintext
password: registering Ana with password "secret" stores the string "secret"
verbatim as the users row's password column — no hashing is applied anywhere
in that route (part_001 behaves the same), contradicting the requirement to
store only a one-way hash and never the plaintext. -/
theorem registerV0_stores_plaintext :
    ((registerV0 DB.empty "Ana" "ana@x.com" "secret" .works).2.users.map
      fun u => u.password) = ["secret"] := rfl

/-! ## Claim C7 — startup destroys stored state -/

/-- C7 (code bug): `src/server.js` runs `dropOldTables()` followed by
`ensureTables()` on every process start, so stored state does not survive a
restart: starting from `dbW` (two sessions, three memory entries), the
post-startup state has empty `sessions`, `memories` and `chat_stats` tables,
contradicting the durability of Session/MemoryEntry/UsageStat records across
process starts. -/
theorem startupV0_destroys_state :
    dbW.sessions ≠ [] ∧ dbW.memories ≠ [] ∧
    (startupV0 dbW).sessions = [] ∧ (startupV0 dbW).memories = [] ∧
    (startupV0 dbW).chatStats = [] := by
  refine ⟨?_, ?_, rfl, rfl, rfl⟩ <;> decide

/-! ## Claim C8 — error responses carry internal detail -/

/-- C8 counterexample: two distinct storage failures during register produce
two distinct 500 bodies, each carrying the raw internal error text verbatim —
untrusted callers observe internal diagnostic detail and can tell internal
errors apart, contradicting the claim. -/
theorem registerV0_error_leak_counterexample :
    (registerV0 DB.empty "Ana" "ana@x.com" "secret"
        (.failed "connect ECONNREFUSED 10.0.0.5:3306")).1 =
      .serverError "connect ECONNREFUSED 10.0.0.5:3306" ∧
    (registerV0 DB.empty "Ana" "ana@x.com" "secret"
        (.failed "ER_LOCK_DEADLOCK")).1 = .serverError "ER_LOCK_DEADLOCK" ∧
    (registerV0 DB.empty "Ana" "ana@x.com" "secret"
        (.failed "connect ECONNREFUSED 10.0.0.5:3306")).1 ≠
      (registerV0 DB.empty "Ana" "ana@x.com" "secret"
        (.failed "ER_LOCK_DEADLOCK")).1 := by
  refine ⟨rfl, rfl, ?_⟩
  decide

/-- C8 (amended): storage and upstream failures are surfaced to the caller as
a 500 failure, but the response body embeds the internal error text instead
of a uniform generic message: register copies `err.message` verbatim and chat
answers `"Erreur modèle: " ++ err.message`, so distinct internal errors are
observable by untrusted callers. -/
theorem errors_surface_internal_text (db : DB)
    (name email password stmsg : String)
    (hn : name ≠ "") (he : email ≠ "") (hp : password ≠ "")
    (now : Nat) (tok : Option String) (message emsg : String)
    (hm : message ≠ "") :
    (registerV0 db name email password (.failed stmsg)).1 =
      .serverError stmsg ∧
    (chatV1 db now tok message (.threw emsg)).response =
      .modelError ("Erreur modèle: " ++ emsg) := by
  constructor
  · unfold registerV0
    rw [if_neg (by simp [hn, he, hp])]
  · exact chatV1_response_threw db now tok message emsg hm

/-- Witness for C8's amended claim at concrete inputs. -/
theorem errors_surface_internal_text_witness :
    (registerV0 dbW "Eve" "eve@x.com" "pw" (.failed "pool exhausted")).1 =
      .serverError "pool exhausted" ∧
    (chatV1 dbW 0 none "Salut" (.threw "socket hang up")).response =
      .modelError ("Erreur modèle: " ++ "socket hang up") :=
  errors_surface_internal_text dbW "Eve" "eve@x.com" "pw" "pool exhausted"
    (by decide) (by decide) (by decide) 0 none "Salut" "socket hang up"
    (by decide)

/-! ## Claim C9 — upgrade -/

theorem findSome?_option_map {α β γ : Type} (f : α → Option β) (g : β → γ) :
    ∀ l : List α, (l.findSome? fun x => (f x).map g) = (l.findSome? f).map g
  | [] => rfl
  | x :: xs => by
    simp only [List.findSome?_cons]
    cases hfx : f x with
    | none => simpa [hfx] using findSome?_option_map f g xs
    | some b => simp [hfx]

theorem setPremiumIf_id (targetId : Nat) (u : User) :
    (setPremiumIf targetId u).id = u.id := by
  unfold setPremiumIf
  split <;> rfl

theorem setPremiumIf_idem (targetId : Nat) (u : User) :
    setPremiumIf targetId (setPremiumIf targetId u) = setPremiumIf targetId u := by
  unfold setPremiumIf
  by_cases h : (u.id == targetId) = true <;> simp [h]

/-- The session-validating query commutes with the plan update: validating in
the updated users table finds the updated row of the same user. -/
theorem validate_map_setPremium (db : DB) (now : Nat) (t : String)
    (targetId : Nat) :
    validate { db with users := db.users.map (setPremiumIf targetId) } now t =
      (validate db now t).map (setPremiumIf targetId) := by
  unfold validate
  rw [← findSome?_option_map
    (fun s => if s.token = t ∧ sessionLive now s then
      db.users.find? fun u => u.id == s.userId
    else none) (setPremiumIf targetId) db.sessions]
  congr 1
  funext s
  by_cases hc : s.token = t ∧ sessionLive now s = true
  · rw [if_pos hc, if_pos hc, List.find?_map]
    have hpred : ((fun u : User => u.id == s.userId) ∘ setPremiumIf targetId) =
        fun u : User => u.id == s.userId :=
      funext fun u => by simp [Function.comp, setPremiumIf_id]
    rw [hpred]
  · rw [if_neg hc, if_neg hc]
    rfl

/-- C9 (amended): for every identity reachable through a valid session, the
upgrade route succeeds and leaves the plan equal to premium, and applying it a
second time succeeds and changes nothing (idempotence); the route has no
NotFoundError path — an absent identity surfaces as a failed session join
answered with 401, and the `UPDATE ... WHERE id = ?` itself reports success
even when it matches no row. -/
theorem upgrade_idempotent_premium (db : DB) (now : Nat) (t : String)
    (u : User) (hu : validate db now t = some u) :
    (upgradeV1 db now (some t)).1 = .okPremium ∧
    (upgradeV1 (upgradeV1 db now (some t)).2 now (some t)).1 = .okPremium ∧
    (upgradeV1 (upgradeV1 db now (some t)).2 now (some t)).2 =
      (upgradeV1 db now (some t)).2 ∧
    ∀ x ∈ (upgradeV1 db now (some t)).2.users, x.id = u.id →
      x.plan = Plan.premium := by
  have h1 : upgradeV1 db now (some t) =
      (.okPremium, { db with users := db.users.map (setPremiumIf u.id) }) := by
    unfold upgradeV1
    simp only [Option.some_bind, hu]
  have hv2 : validate { db with users := db.users.map (setPremiumIf u.id) } now t
      = some (setPremiumIf u.id u) := by
    rw [validate_map_setPremium, hu]
    rfl
  have h2 : upgradeV1 { db with users := db.users.map (setPremiumIf u.id) } now
      (some t) =
      (.okPremium, { db with users := db.users.map (setPremiumIf u.id) }) := by
    unfold upgradeV1
    simp only [Option.some_bind, hv2]
    have : (db.users.map (setPremiumIf u.id)).map
        (setPremiumIf (setPremiumIf u.id u).id) =
        db.users.map (setPremiumIf u.id) := by
      rw [setPremiumIf_id, List.map_map]
      exact List.map_congr_left fun a _ => setPremiumIf_idem u.id a
    rw [this]
  refine ⟨by rw [h1], ?_, ?_, ?_⟩
  · rw [h1, h2]
  · rw [h1, h2]
  · rw [h1]
    intro x hx hid
    rcases List.mem_map.mp hx with ⟨y, _, hy⟩
    subst hy
    rw [setPremiumIf_id] at hid
    unfold setPremiumIf
    rw [if_pos (by exact beq_iff_eq.mpr hid)]

/-- Witness for C9's amended claim: upgrading Ana through session `tok1`
twice succeeds both times, leaves her plan premium and changes nothing the
second time. -/
theorem upgrade_idempotent_premium_witness :
    (upgradeV1 dbW 0 (some "tok1")).1 = .okPremium ∧
    (upgradeV1 (upgradeV1 dbW 0 (some "tok1")).2 0 (some "tok1")).1 =
      .okPremium ∧
    (upgradeV1 (upgradeV1 dbW 0 (some "tok1")).2 0 (some "tok1")).2 =
      (upgradeV1 dbW 0 (some "tok1")).2 ∧
    ∀ x ∈ (upgradeV1 dbW 0 (some "tok1")).2.users, x.id = 1 →
      x.plan = Plan.premium :=
  upgrade_idempotent_premium dbW 0 "tok1"
    { id := 1, name := "Ana", email := "ana@x.com", password := "secret",
      plan := Plan.basic } (by decide)

/-- Concrete state for C9's counterexample: a live session whose `user_id` 42
has no matching identity row (deletion of identities is an external concern,
and the part_001 sessions table has no foreign key). -/
def dbOrphan : DB :=
  { users := [],
    sessions := [{ token := "ghost", userId := 42, expiresAt := some 1000 }],
    memories := [], chatStats := [], userSettings := [],
    nextUserId := 1, nextMemId := 1 }

/-- C9 counterexample: when no identity with the session's id exists, the
upgrade route answers 401 (the session join fails) and changes nothing — it
does not fail with NotFoundError; indeed `UpgradeResponse`, the route's only
outcomes, has no NotFound constructor at all, contradicting the claim. -/
theorem upgrade_absent_identity_unauthorized :
    upgradeV1 dbOrphan 0 (some "ghost") = (.unauthorized, dbOrphan) := rfl

/-! ## Claim C10 — the window is fetched before the turn is appended -/

/-- C10: in part_001's chat, the memory window rendered into the prompt is
fetched before this turn's entries are appended: the prompt's memory section
renders `getMemory` of the pre-request state (at most the 10 most recent
entries, every one with an id below the pre-request `AUTO_INCREMENT` counter,
i.e. created strictly before the request — in particular neither of this
turn's entries), the user turn and the ai turn are appended only after the
upstream call with the two fresh ids, and a subsequent fetch of size 2 sees
exactly that pair. -/
theorem chat_window_precedes_append (db : DB) (now : Nat) (t message : String)
    (a b : Option String) (u : User)
    (hu : validate db now t = some u) (hm : message ≠ "")
    (hord : MemOrdered db) :
    (chatV1 db now (some t) message (.ok a b)).request =
      some { inputs := mkPromptV1 (renderMemory (getMemory db u.id 10)) message,
             maxNewTokens := maxNewTokensV1 (u.plan == Plan.premium) } ∧
    (getMemory db u.id 10).length ≤ 10 ∧
    (∀ m ∈ getMemory db u.id 10, m.id < db.nextMemId) ∧
    (chatV1 db now (some t) message (.ok a b)).db.memories =
      db.memories ++
        [{ id := db.nextMemId, userId := u.id, role := "user",
           content := message },
         { id := db.nextMemId + 1, userId := u.id, role := "ai",
           content := jsOrElse a (jsOrElse b "Erreur génération") }] ∧
    getMemory (chatV1 db now (some t) message (.ok a b)).db u.id 2 =
      [{ id := db.nextMemId, userId := u.id, role := "user",
         content := message },
       { id := db.nextMemId + 1, userId := u.id, role := "ai",
         content := jsOrElse a (jsOrElse b "Erreur génération") }] := by
  have hlen : (getMemory db u.id 10).length ≤ 10 := by
    rw [getMemory_eq_drop _ _ hord.1, List.length_drop]
    omega
  have hpast : ∀ m ∈ getMemory db u.id 10, m.id < db.nextMemId := by
    intro m hmem
    rw [getMemory_eq_drop _ _ hord.1] at hmem
    exact hord.2 m (List.mem_filter.mp (List.drop_subset _ _ hmem)).1
  have hpush := (hord.push u.id "user" message).push u.id "ai"
    (jsOrElse a (jsOrElse b "Erreur génération"))
  refine ⟨chatV1_request_auth db now t message (.ok a b) u hu hm, hlen, hpast,
    ?_, ?_⟩
  · rw [chatV1_auth_ok db now t message a b u hu hm]
    simp [pushMemory]
  · rw [chatV1_auth_ok db now t message a b u hu hm]
    rw [getMemory_eq_drop _ _ hpush.1]
    simp only [pushMemory, List.filter_append, List.append_assoc,
      List.singleton_append]
    have hkeep : (List.filter (fun m => m.userId == u.id)
        [({ id := db.nextMemId, userId := u.id, role := "user",
            content := message } : MemoryEntry),
         { id := db.nextMemId + 1, userId := u.id, role := "ai",
           content := jsOrElse a (jsOrElse b "Erreur génération") }]) =
        [{ id := db.nextMemId, userId := u.id, role := "user",
           content := message },
         { id := db.nextMemId + 1, userId := u.id, role := "ai",
           content := jsOrElse a (jsOrElse b "Erreur génération") }] := by
      simp [List.filter]
    rw [show ((db.memories.filter fun m => m.userId == u.id) ++
        List.filter (fun m => m.userId == u.id)
          [({ id := db.nextMemId, userId := u.id, role := "user",
              content := message } : MemoryEntry),
           { id := db.nextMemId + 1, userId := u.id, role := "ai",
             content := jsOrElse a (jsOrElse b "Erreur génération") }]) =
        ((db.memories.filter fun m => m.userId == u.id) ++
          [{ id := db.nextMemId, userId := u.id, role := "user",
             content := message },
           { id := db.nextMemId + 1, userId := u.id, role := "ai",
             content := jsOrElse a (jsOrElse b "Erreur génération") }])
      from by rw [hkeep]]
    rw [show ((db.memories.filter fun m => m.userId == u.id) ++
        [({ id := db.nextMemId, userId := u.id, role := "user",
            content := message } : MemoryEntry),
         { id := db.nextMemId + 1, userId := u.id, role := "ai",
           content := jsOrElse a (jsOrElse b "Erreur génération") }]).length - 2 =
        (db.memories.filter fun m => m.userId == u.id).length
      from by simp]
    exact List.drop_left _ _

/-- Witness for C10: Ana's authenticated chat turn against `dbW` fetches her
two pre-existing entries, appends this turn's pair with ids 4 and 5 only
afterwards, and a subsequent fetch of size 2 returns exactly that pair. -/
theorem chat_window_precedes_append_witness :
    validate dbW 0 "tok1" =
      some { id := 1, name := "Ana", email := "ana@x.com",
             password := "secret", plan := Plan.basic } ∧
    ((chatV1 dbW 0 (some "tok1") "Comment ça va ?"
        (.ok (some "Très bien.") none)).request =
      some { inputs :=
               mkPromptV1 (renderMemory (getMemory dbW 1 10)) "Comment ça va ?",
             maxNewTokens := maxNewTokensV1 (Plan.basic == Plan.premium) } ∧
    (getMemory dbW 1 10).length ≤ 10 ∧
    (∀ m ∈ getMemory dbW 1 10, m.id < dbW.nextMemId) ∧
    (chatV1 dbW 0 (some "tok1") "Comment ça va ?"
        (.ok (some "Très bien.") none)).db.memories =
      dbW.memories ++
        [{ id := dbW.nextMemId, userId := 1, role := "user",
           content := "Comment ça va ?" },
         { id := dbW.nextMemId + 1, userId := 1, role := "ai",
           content := jsOrElse (some "Très bien.")
             (jsOrElse none "Erreur génération") }] ∧
    getMemory (chatV1 dbW 0 (some "tok1") "Comment ça va ?"
        (.ok (some "Très bien.") none)).db 1 2 =
      [{ id := dbW.nextMemId, userId := 1, role := "user",
         content := "Comment ça va ?" },
       { id := dbW.nextMemId + 1, userId := 1, role := "ai",
         content := jsOrElse (some "Très bien.")
           (jsOrElse none "Erreur génération") }]) :=
  ⟨by decide,
    chat_window_precedes_append dbW 0 "tok1" "Comment ça va ?"
      (some "Très bien.") none
      { id := 1, name := "Ana", email := "ana@x.com", password := "secret",
        plan := Plan.basic }
      (by decide) (by decide) (by unfold MemOrdered; decide)⟩

end Sarver
